import Mathlib

/-!
Verification of the SCC vulnerability report generator
(`src/cloudfunction.py`, function `generate_scc_report`).

The Python function queries a security-findings service per project,
buckets findings by category, extracts spreadsheet rows branching on
resource type, writes a two-sheet spreadsheet per (project, category),
uploads it to object storage, and returns a plain-text per-project
summary.

The shallow embedding below models the external finding/resource data
as plain records; submessages that the Python code guards with
truthiness tests (`if offending and ...`, `if vulnerability.cve`,
`if fixed`) are modelled as `Option`, with attribute access on an
absent value raising (returning `Except.error`), mirroring attribute
access on Python `None`. External effects (spreadsheet writes and
object-storage uploads) are modelled as the lists of local paths
written and destination paths uploaded.
-/

namespace SccReport

/-- A package reference inside a vulnerability detail: name, type and
version strings (absent string fields are the empty string). -/
structure Package where
  package_name : String
  package_type : String
  package_version : String
  deriving Repr, DecidableEq

/-- A CVE reference: just the id, as the code only reads `cve.id`. -/
structure Cve where
  id : String
  deriving Repr, DecidableEq

/-- Vulnerability detail of a finding: optional CVE, optional fixed
package and optional offending package. -/
structure Vulnerability where
  cve : Option Cve
  fixed_package : Option Package
  offending_package : Option Package
  deriving Repr, DecidableEq

/-- A file reference attached to a finding; the code reads `f.path`. -/
structure FileRef where
  path : String
  deriving Repr, DecidableEq

/-- A container inside a Kubernetes workload object; the code reads
`c.uri`. -/
structure Container where
  uri : String
  deriving Repr, DecidableEq

/-- A Kubernetes workload object: namespace `ns`, object `name` and
its containers, as read by the code. -/
structure K8sObject where
  ns : String
  name : String
  containers : List Container
  deriving Repr, DecidableEq

/-- Kubernetes detail of a finding: the list of workload objects. -/
structure KubernetesDetail where
  objects : List K8sObject
  deriving Repr, DecidableEq

/-- A security finding, restricted to the fields the code reads:
severity, category, vulnerability detail, attached files, event time
and Kubernetes detail. The category is a string; the empty string
stands for an absent category (falsy in Python). -/
structure Finding where
  severity : String
  category : String
  vulnerability : Vulnerability
  files : List FileRef
  event_time : String
  kubernetes : KubernetesDetail
  deriving Repr, DecidableEq

/-- The resource a finding applies to: a type discriminator string and
a display name. -/
structure Resource where
  type : String
  display_name : String
  deriving Repr, DecidableEq

/-- One element of `all_data`: the pair of a finding and its resource,
as assembled in the fetch loop. -/
structure Item where
  finding : Finding
  resource : Resource
  deriving Repr, DecidableEq

/-- Truthiness of an optional string, as Python applies `not` to the
result of `dict.get` / `os.environ.get`: `None` and the empty string
are falsy. -/
def truthy : Option String → Bool
  | none => false
  | some s => !s.isEmpty

/-- Attribute access `p.<attr>` on an optional package: on `none` it
raises, as Python attribute access on `None` does. -/
def fixedAttr (attr : String) (field : Package → String) :
    Option Package → Except String String
  | some p => Except.ok (field p)
  | none =>
      Except.error ("AttributeError: NoneType object has no attribute " ++ attr)

/-- The package-field preference of `base_row`:
`offending.<f> if offending and offending.<f> else fixed.<f>`. -/
def pkgFieldPref (attr : String) (field : Package → String)
    (offending fixed : Option Package) : Except String String :=
  match offending with
  | some op => if field op = "" then fixedAttr attr field fixed else Except.ok (field op)
  | none => fixedAttr attr field fixed

/-- The flat base record built for every finding before the
resource-type branch (lines 170-196 of `cloudfunction.py`). -/
structure BaseRow where
  severity : String
  cve_id : Option String
  package_name : String
  package_type : String
  offending_package_version : Option String
  fixed_package_version : Option String
  affected_files : String
  deriving Repr, DecidableEq

/-- Construction of `base_row` plus the `affected_files` join. The
`package_name` field is evaluated before `package_type`, so its
failure wins, matching the evaluation order of the Python dict
literal. -/
def base_row (finding : Finding) : Except String BaseRow :=
  let fixed := finding.vulnerability.fixed_package
  let offending := finding.vulnerability.offending_package
  match pkgFieldPref "package_name" Package.package_name offending fixed,
        pkgFieldPref "package_type" Package.package_type offending fixed with
  | Except.ok name, Except.ok ptype =>
      Except.ok
        { severity := finding.severity
          cve_id := Option.map Cve.id finding.vulnerability.cve
          package_name := name
          package_type := ptype
          offending_package_version := Option.map Package.package_version offending
          fixed_package_version := Option.map Package.package_version fixed
          affected_files :=
            String.intercalate "\n"
              ((finding.files.filter (fun f => f.path ≠ "")).map FileRef.path) }
  | Except.error e, _ => Except.error e
  | _, Except.error e => Except.error e

/-- A row of the VMs sheet: the base record plus `vm_name` and
`event_time`. -/
structure VmRow where
  base : BaseRow
  vm_name : String
  event_time : String
  deriving Repr, DecidableEq

/-- A row of the Kubernetes sheet: the base record plus cluster name,
namespace (spreadsheet column "namespace", here field `ns` since
`namespace` is a Lean keyword), object name, joined image URIs and
`event_time`. -/
structure K8sRow where
  base : BaseRow
  cluster_name : String
  ns : String
  k8s_object_name : String
  image_uri : String
  event_time : String
  deriving Repr, DecidableEq

/-- Outcome of processing one item in the extraction loop: a VM row, a
Kubernetes row, or nothing (unmapped resource type, or a
container-cluster finding without workload objects). -/
inductive RowOut where
  | vm : VmRow → RowOut
  | k8s : K8sRow → RowOut
  | skip : RowOut
  deriving Repr, DecidableEq

/-- One iteration of the extraction loop (lines 160-229): build the
base record, then branch on the resource type. Only the first workload
object of a container-cluster finding is read, and a finding with no
workload objects yields `skip`. -/
def extractItem (item : Item) : Except String RowOut :=
  match base_row item.finding with
  | Except.error e => Except.error e
  | Except.ok row =>
    if item.resource.type = "google.compute.Instance" then
      Except.ok (RowOut.vm
        { base := row
          vm_name := item.resource.display_name
          event_time := item.finding.event_time })
    else if item.resource.type = "google.container.Cluster" then
      match item.finding.kubernetes.objects with
      | [] => Except.ok RowOut.skip
      | k8s_obj :: _ =>
        Except.ok (RowOut.k8s
          { base := row
            cluster_name := item.resource.display_name
            ns := k8s_obj.ns
            k8s_object_name := k8s_obj.name
            image_uri :=
              String.intercalate ", "
                ((k8s_obj.containers.filter (fun c => c.uri ≠ "")).map Container.uri)
            event_time := item.finding.event_time })
    else Except.ok RowOut.skip

/-- The whole extraction loop over the findings of one category,
producing the `vms` and `k8s` tables in order; the first raising item
aborts, as the Python exception does. -/
def processFindings : List Item → Except String (List VmRow × List K8sRow)
  | [] => Except.ok ([], [])
  | item :: rest =>
    match extractItem item with
    | Except.error e => Except.error e
    | Except.ok out =>
      match processFindings rest with
      | Except.error e => Except.error e
      | Except.ok (vms, k8s) =>
        match out with
        | RowOut.vm r => Except.ok (vms ++ [r], k8s)
        | RowOut.k8s r => Except.ok (vms, k8s ++ [r])
        | RowOut.skip => Except.ok (vms, k8s)

/-- The category key used for bucketing:
`finding_data.category or "UNKNOWN"` (the empty string is falsy). -/
def catOf (item : Item) : String :=
  if item.finding.category = "" then "UNKNOWN" else item.finding.category

/-- Insertion into the ordered category map, matching
`category_buckets.setdefault(category, []).append(item)` on a Python
dict with insertion-ordered keys. -/
def bucketInsert (buckets : List (String × List Item)) (cat : String)
    (item : Item) : List (String × List Item) :=
  match buckets with
  | [] => [(cat, [item])]
  | (c, items) :: rest =>
    if c = cat then (c, items ++ [item]) :: rest
    else (c, items) :: bucketInsert rest cat item

/-- The bucketing loop of lines 113-117: partition `all_data` by
category, defaulting to "UNKNOWN". -/
def category_buckets (all_data : List Item) : List (String × List Item) :=
  all_data.foldl (fun b item => bucketInsert b (catOf item) item) []

/-- The hardcoded project list (lines 19-27). -/
def PROJECT_IDS : List String :=
  [ "toorak-396910",
    "merchants-396910",
    "shared-infrastructure-396910",
    "network-396910",
    "dev-ops-396910",
    "table-funding",
    "originator-platform-396910" ]

/-- The static category-to-folder map (lines 60-63). -/
def CATEGORY_FOLDER_MAP : List (String × String) :=
  [ ("SOFTWARE_VULNERABILITY", "software_vulnerabilities"),
    ("OS_VULNERABILITY", "OS_vulnerabilities") ]

/-- The static project-to-folder map (lines 68-76). -/
def PROJECT_FOLDER_MAP : List (String × String) :=
  [ ("dev-ops-396910", "devops"),
    ("merchants-396910", "mmtc"),
    ("network-396910", "network"),
    ("toorak-396910", "tc"),
    ("shared-infrastructure-396910", "si"),
    ("table-funding", "tf"),
    ("originator-platform-396910", "op") ]

/-- One category iteration of the per-project loop (lines 122-279):
resolve the two folder segments (raising the `ValueError` message when
either lookup is falsy), build the local and destination paths,
extract the rows (which may raise), then write, upload and clean up.
On success the result is the pair (local path written, destination
path uploaded). -/
def processCategory (PROJECT_ID TIMESTAMP CATEGORY : String)
    (findings : List Item) : Except String (String × String) :=
  let top_level_folder := List.lookup CATEGORY CATEGORY_FOLDER_MAP
  let project_folder := List.lookup PROJECT_ID PROJECT_FOLDER_MAP
  if !truthy top_level_folder || !truthy project_folder then
    Except.error
      ("Missing folder mapping for CATEGORY=" ++ CATEGORY ++
        ", PROJECT_ID=" ++ PROJECT_ID)
  else
    let OUTPUT_EXCEL :=
      "/tmp/scc_" ++ PROJECT_ID ++ "_" ++ CATEGORY ++ "_" ++ TIMESTAMP ++ ".xlsx"
    let GCS_EXCEL_PATH :=
      "SCC-Reports/" ++ top_level_folder.getD "" ++ "/" ++
        project_folder.getD "" ++ "/scc_" ++ PROJECT_ID ++ "_" ++ TIMESTAMP ++ ".xlsx"
    match processFindings findings with
    | Except.error e => Except.error e
    | Except.ok _ => Except.ok (OUTPUT_EXCEL, GCS_EXCEL_PATH)

/-- The category loop of one project: returns the list of local paths
written, the list of destination paths uploaded, and the message of
the first raised exception if any. An exception aborts the remaining
categories; paths already written/uploaded are kept. -/
def processCategories (PROJECT_ID TIMESTAMP : String) :
    List (String × List Item) → List String × List String × Option String
  | [] => ([], [], none)
  | (CATEGORY, findings) :: rest =>
    match processCategory PROJECT_ID TIMESTAMP CATEGORY findings with
    | Except.error e => ([], [], some e)
    | Except.ok (localPath, gcsPath) =>
      let r := processCategories PROJECT_ID TIMESTAMP rest
      (localPath :: r.1, gcsPath :: r.2.1, r.2.2)

/-- Result of one project iteration: the summary line appended and the
effects performed (spreadsheet writes and uploads). -/
structure ProjectResult where
  line : String
  writes : List String
  uploads : List String
  deriving Repr, DecidableEq

/-- One iteration of the project loop (lines 81-285). `findingsOf`
stands for the external findings-query service, giving the fetched
`all_data` of a project. Zero findings short-circuits to
"SUCCESS (No findings)"; otherwise the categories are processed and
any exception turns into the "FAILED (...)" line. -/
def processProject (findingsOf : String → List Item)
    (TIMESTAMP PROJECT_ID : String) : ProjectResult :=
  let all_data := findingsOf PROJECT_ID
  if all_data.isEmpty then
    { line := PROJECT_ID ++ ": SUCCESS (No findings)", writes := [], uploads := [] }
  else
    let r := processCategories PROJECT_ID TIMESTAMP (category_buckets all_data)
    match r.2.2 with
    | none =>
      { line := PROJECT_ID ++ ": SUCCESS", writes := r.1, uploads := r.2.1 }
    | some e =>
      { line := PROJECT_ID ++ ": FAILED (" ++ e ++ ")", writes := r.1, uploads := r.2.1 }

/-- A UTC wall-clock instant, the value of `datetime.utcnow()`. -/
structure UtcTime where
  year : Nat
  month : Nat
  day : Nat
  hour : Nat
  minute : Nat
  second : Nat
  deriving Repr, DecidableEq

/-- Zero-padding to two digits, as `%m`, `%d`, `%H`, `%M`, `%S` pad. -/
def pad2 (n : Nat) : String :=
  if n < 10 then "0" ++ toString n else toString n

/-- Zero-padding to four digits, as `%Y` pads. -/
def pad4 (n : Nat) : String :=
  if n < 10 then "000" ++ toString n
  else if n < 100 then "00" ++ toString n
  else if n < 1000 then "0" ++ toString n
  else toString n

/-- `strftime("%Y%m%d_%H%M%S")`: the run timestamp format
YYYYMMDD_HHMMSS (line 43). -/
def strftime_Ymd_HMS (t : UtcTime) : String :=
  pad4 t.year ++ pad2 t.month ++ pad2 t.day ++ "_" ++
    pad2 t.hour ++ pad2 t.minute ++ pad2 t.second

/-- Observable result of one invocation of the entry point: response
body, status code, the projects queried against the findings service,
and the write/upload effects. -/
structure RunResult where
  body : String
  status : Nat
  queries : List String
  writes : List String
  uploads : List String
  deriving Repr, DecidableEq

/-- The entry point `generate_scc_report`. `GCS_BUCKET` is the value
of the environment lookup; a falsy value returns the 500 error before
any query, write or upload. Otherwise every project of `PROJECT_IDS`
is processed in order with the single run timestamp, and the response
is the fixed header followed by one summary line per project, with
status 200. -/
def generate_scc_report (GCS_BUCKET : Option String)
    (findingsOf : String → List Item) (utcnow : UtcTime) : RunResult :=
  if !truthy GCS_BUCKET then
    { body := "ERROR: GCS_BUCKET environment variable must be set"
      status := 500
      queries := []
      writes := []
      uploads := [] }
  else
    let TIMESTAMP := strftime_Ymd_HMS utcnow
    let results := PROJECT_IDS.map (processProject findingsOf TIMESTAMP)
    { body :=
        "SCC report generation completed\n\n" ++
          String.intercalate "\n" (results.map ProjectResult.line)
      status := 200
      queries := PROJECT_IDS
      writes := (results.map ProjectResult.writes).flatten
      uploads := (results.map ProjectResult.uploads).flatten }

/-- Total number of items held across all buckets. -/
def bucketsTotal (bs : List (String × List Item)) : Nat :=
  (bs.map (fun p => p.2.length)).sum

/-- Coherence of a bucket map: every item sits in the bucket of its
own category key. -/
def BucketsWF (bs : List (String × List Item)) : Prop :=
  ∀ p ∈ bs, ∀ x ∈ p.2, catOf x = p.1

/-- The three admissible shapes of a per-project summary line. -/
def isSummaryLine (PROJECT_ID line : String) : Prop :=
  line = PROJECT_ID ++ ": SUCCESS" ∨
  line = PROJECT_ID ++ ": SUCCESS (No findings)" ∨
  ∃ e, line = PROJECT_ID ++ ": FAILED (" ++ e ++ ")"

/-! Concrete fixtures used by the witness theorems. -/

/-- An offending package with non-empty name and type. -/
def pkgOff : Package :=
  { package_name := "libssl", package_type := "OS_PACKAGE", package_version := "1.0.1" }

/-- A fixed package, distinct from the offending one. -/
def pkgFix : Package :=
  { package_name := "libssl-fix", package_type := "GO_PACKAGE", package_version := "1.0.2" }

/-- A well-formed finding carrying a CVE, both packages and one file. -/
def goodFinding : Finding :=
  { severity := "CRITICAL"
    category := "SOFTWARE_VULNERABILITY"
    vulnerability :=
      { cve := some { id := "CVE-2024-0001" }
        fixed_package := some pkgFix
        offending_package := some pkgOff }
    files := [{ path := "/usr/lib/a" }]
    event_time := "2026-01-01T00:00:00Z"
    kubernetes := { objects := [] } }

/-- The base record extracted from `goodFinding`. -/
def goodBaseRow : BaseRow :=
  { severity := "CRITICAL"
    cve_id := some "CVE-2024-0001"
    package_name := "libssl"
    package_type := "OS_PACKAGE"
    offending_package_version := some "1.0.1"
    fixed_package_version := some "1.0.2"
    affected_files := "/usr/lib/a" }

/-- `goodFinding` on a compute-instance resource. -/
def goodVmItem : Item :=
  { finding := goodFinding
    resource := { type := "google.compute.Instance", display_name := "vm-1" } }

/-- The VM row extracted from `goodVmItem`. -/
def goodVmRow : VmRow :=
  { base := goodBaseRow, vm_name := "vm-1", event_time := "2026-01-01T00:00:00Z" }

/-- A finding in a category outside the category folder map. -/
def badCatFinding : Finding :=
  { goodFinding with category := "OTHER_CATEGORY" }

/-- `badCatFinding` on a compute-instance resource. -/
def badCatItem : Item :=
  { finding := badCatFinding
    resource := { type := "google.compute.Instance", display_name := "vm-2" } }

/-- A container-cluster item whose finding has zero workload objects. -/
def emptyK8sItem : Item :=
  { finding := goodFinding
    resource := { type := "google.container.Cluster", display_name := "cluster-1" } }

/-- A finding whose vulnerability has neither an offending nor a fixed
package. -/
def orphanFinding : Finding :=
  { goodFinding with
      vulnerability := { cve := none, fixed_package := none, offending_package := none } }

/-- `orphanFinding` on a compute-instance resource. -/
def orphanItem : Item :=
  { finding := orphanFinding
    resource := { type := "google.compute.Instance", display_name := "vm-3" } }

/-- A findings service returning nothing for every project. -/
def findsNone : String → List Item := fun _ => []

/-- A findings service returning one well-formed VM finding for the
first hardcoded project. -/
def findsGood : String → List Item :=
  fun p => if p = "toorak-396910" then [goodVmItem] else []

/-- A findings service returning one well-formed finding and one
finding in an unmapped category for the first hardcoded project. -/
def findsMixed : String → List Item :=
  fun p => if p = "toorak-396910" then [goodVmItem, badCatItem] else []

/-- A findings service returning one package-less finding for the
first hardcoded project. -/
def findsOrphan : String → List Item :=
  fun p => if p = "toorak-396910" then [orphanItem] else []

/-- A fixed run start instant. -/
def t0 : UtcTime :=
  { year := 2026, month := 1, day := 2, hour := 3, minute := 4, second := 5 }

/-! Helper lemmas. -/

/-- Specification of the package-field preference when it succeeds:
the offending field wins when the offending package is present with a
non-empty field, the fixed field is used otherwise. -/
theorem pkgFieldPref_ok (attr : String) (field : Package → String)
    (offending fixed : Option Package) (v : String)
    (h : pkgFieldPref attr field offending fixed = Except.ok v) :
    (∀ op, offending = some op →
      ((field op ≠ "" → v = field op) ∧
       (field op = "" → ∀ pf, fixed = some pf → v = field pf))) ∧
    (offending = none → ∀ pf, fixed = some pf → v = field pf) := by
  cases offending with
  | none =>
    cases fixed with
    | none => simp [pkgFieldPref, fixedAttr] at h
    | some pf =>
      simp [pkgFieldPref, fixedAttr] at h
      refine ⟨(by intro op hop; cases hop), ?_⟩
      intro _ pf2 hpf2
      cases hpf2
      exact h.symm
  | some op =>
    by_cases hf : field op = ""
    · cases fixed with
      | none => simp [pkgFieldPref, hf, fixedAttr] at h
      | some pf =>
        simp [pkgFieldPref, hf, fixedAttr] at h
        refine ⟨?_, (by intro hn; cases hn)⟩
        intro op2 hop2
        cases hop2
        exact ⟨fun hne => absurd hf hne, fun _ pf2 hpf2 => by cases hpf2; exact h.symm⟩
    · simp [pkgFieldPref, hf] at h
      refine ⟨?_, (by intro hn; cases hn)⟩
      intro op2 hop2
      cases hop2
      exact ⟨fun _ => h.symm, fun he => absurd he hf⟩

/-- Success of `base_row` determines the row through the two
package-field preferences. -/
theorem base_row_ok (finding : Finding) (row : BaseRow)
    (h : base_row finding = Except.ok row) :
    ∃ name ptype,
      pkgFieldPref "package_name" Package.package_name
        finding.vulnerability.offending_package
        finding.vulnerability.fixed_package = Except.ok name ∧
      pkgFieldPref "package_type" Package.package_type
        finding.vulnerability.offending_package
        finding.vulnerability.fixed_package = Except.ok ptype ∧
      row.package_name = name ∧ row.package_type = ptype := by
  simp only [base_row] at h
  cases hn : pkgFieldPref "package_name" Package.package_name
      finding.vulnerability.offending_package finding.vulnerability.fixed_package with
  | error e => rw [hn] at h; simp at h
  | ok name =>
    cases ht : pkgFieldPref "package_type" Package.package_type
        finding.vulnerability.offending_package finding.vulnerability.fixed_package with
    | error e => rw [hn, ht] at h; simp at h
    | ok ptype =>
      rw [hn, ht] at h
      simp only [Except.ok.injEq] at h
      exact ⟨name, ptype, rfl, rfl, by rw [← h], by rw [← h]⟩

/-- C1: for every finding whose extraction succeeds, the extracted
row's `package_name` and `package_type` equal the offending package's
field when the offending package is present and that field is
non-empty, and equal the fixed package's field otherwise. -/
theorem scc_C1 (finding : Finding) (row : BaseRow)
    (h : base_row finding = Except.ok row) :
    (∀ op, finding.vulnerability.offending_package = some op →
      ((op.package_name ≠ "" → row.package_name = op.package_name) ∧
       (op.package_name = "" → ∀ pf, finding.vulnerability.fixed_package = some pf →
          row.package_name = pf.package_name) ∧
       (op.package_type ≠ "" → row.package_type = op.package_type) ∧
       (op.package_type = "" → ∀ pf, finding.vulnerability.fixed_package = some pf →
          row.package_type = pf.package_type))) ∧
    (finding.vulnerability.offending_package = none →
      ∀ pf, finding.vulnerability.fixed_package = some pf →
        row.package_name = pf.package_name ∧ row.package_type = pf.package_type) := by
  obtain ⟨name, ptype, hn, ht, hrn, hrt⟩ := base_row_ok finding row h
  obtain ⟨hnSome, hnNone⟩ := pkgFieldPref_ok _ _ _ _ _ hn
  obtain ⟨htSome, htNone⟩ := pkgFieldPref_ok _ _ _ _ _ ht
  constructor
  · intro op hop
    obtain ⟨hn1, hn2⟩ := hnSome op hop
    obtain ⟨ht1, ht2⟩ := htSome op hop
    refine ⟨fun hne => ?_, fun he pf hpf => ?_, fun hne => ?_, fun he pf hpf => ?_⟩
    · rw [hrn, hn1 hne]
    · rw [hrn, hn2 he pf hpf]
    · rw [hrt, ht1 hne]
    · rw [hrt, ht2 he pf hpf]
  · intro hnone pf hpf
    exact ⟨by rw [hrn, hnNone hnone pf hpf], by rw [hrt, htNone hnone pf hpf]⟩

/-- Witness for C1 at `goodFinding`: the offending package has
non-empty name and type, so both fields come from it. -/
theorem scc_C1_witness :
    goodBaseRow.package_name = pkgOff.package_name ∧
    goodBaseRow.package_type = pkgOff.package_type := by
  have hc := (scc_C1 goodFinding goodBaseRow (by rfl)).1 pkgOff rfl
  exact ⟨hc.1 (by decide), hc.2.2.1 (by decide)⟩

/-- C4: a project whose findings query returns zero results gets the
summary line "(project): SUCCESS (No findings)" and no write and no
upload. -/
theorem scc_C4 (findingsOf : String → List Item)
    (TIMESTAMP PROJECT_ID : String) (h : findingsOf PROJECT_ID = []) :
    processProject findingsOf TIMESTAMP PROJECT_ID =
      { line := PROJECT_ID ++ ": SUCCESS (No findings)", writes := [], uploads := [] } := by
  simp [processProject, h]

/-- Witness for C4: the empty findings service on the first hardcoded
project. -/
theorem scc_C4_witness :
    processProject findsNone "20260102_030405" "toorak-396910" =
      { line := "toorak-396910" ++ ": SUCCESS (No findings)", writes := [], uploads := [] } :=
  scc_C4 findsNone "20260102_030405" "toorak-396910" rfl

/-- C5: an absent GCS_BUCKET environment value makes the entry point
return the descriptive error with status 500, with no query, no write
and no upload. -/
theorem scc_C5 (GCS_BUCKET : Option String) (findingsOf : String → List Item)
    (utcnow : UtcTime) (habsent : GCS_BUCKET = none) :
    generate_scc_report GCS_BUCKET findingsOf utcnow =
      { body := "ERROR: GCS_BUCKET environment variable must be set"
        status := 500, queries := [], writes := [], uploads := [] } := by
  subst habsent
  rfl

/-- Witness for C5 at a concrete invocation. -/
theorem scc_C5_witness :
    generate_scc_report none findsGood t0 =
      { body := "ERROR: GCS_BUCKET environment variable must be set"
        status := 500, queries := [], writes := [], uploads := [] } :=
  scc_C5 none findsGood t0 rfl

/-- C9: extraction is not total. For a finding with neither an
offending nor a fixed package, `base_row` raises on the absent fixed
package's `package_name`, and the whole project is recorded FAILED
with that message, nothing written or uploaded. -/
theorem scc_C9 :
    base_row orphanFinding =
      Except.error "AttributeError: NoneType object has no attribute package_name" ∧
    processProject findsOrphan "20260102_030405" "toorak-396910" =
      { line := "toorak-396910: FAILED (AttributeError: NoneType object has no attribute package_name)"
        writes := [], uploads := [] } :=
  ⟨rfl, rfl⟩

/-- A successful extraction implies a successful base record. -/
theorem extractItem_ok_base (item : Item) (out : RowOut)
    (h : extractItem item = Except.ok out) :
    ∃ row, base_row item.finding = Except.ok row := by
  cases hb : base_row item.finding with
  | error e => simp [extractItem, hb] at h
  | ok row => exact ⟨row, rfl⟩

/-- On a compute-instance resource, extraction yields the VM row. -/
theorem extractItem_compute (item : Item) (row : BaseRow)
    (hty : item.resource.type = "google.compute.Instance")
    (hb : base_row item.finding = Except.ok row) :
    extractItem item = Except.ok (RowOut.vm
      { base := row
        vm_name := item.resource.display_name
        event_time := item.finding.event_time }) := by
  simp [extractItem, hb, hty]

/-- On a container-cluster resource with no workload objects,
extraction yields `skip`. -/
theorem extractItem_cluster_empty (item : Item) (row : BaseRow)
    (hty : item.resource.type = "google.container.Cluster")
    (hobj : item.finding.kubernetes.objects = [])
    (hb : base_row item.finding = Except.ok row) :
    extractItem item = Except.ok RowOut.skip := by
  simp [extractItem, hb, hty, hobj]

/-- On a container-cluster resource with a first workload object,
extraction yields the Kubernetes row built from that object. -/
theorem extractItem_cluster_cons (item : Item) (row : BaseRow)
    (k8s_obj : K8sObject) (tail : List K8sObject)
    (hty : item.resource.type = "google.container.Cluster")
    (hobj : item.finding.kubernetes.objects = k8s_obj :: tail)
    (hb : base_row item.finding = Except.ok row) :
    extractItem item = Except.ok (RowOut.k8s
      { base := row
        cluster_name := item.resource.display_name
        ns := k8s_obj.ns
        k8s_object_name := k8s_obj.name
        image_uri :=
          String.intercalate ", "
            ((k8s_obj.containers.filter (fun c => c.uri ≠ "")).map Container.uri)
        event_time := item.finding.event_time }) := by
  simp [extractItem, hb, hty, hobj]

/-- On any other resource type, extraction yields `skip`. -/
theorem extractItem_other (item : Item) (row : BaseRow)
    (hty1 : item.resource.type ≠ "google.compute.Instance")
    (hty2 : item.resource.type ≠ "google.container.Cluster")
    (hb : base_row item.finding = Except.ok row) :
    extractItem item = Except.ok RowOut.skip := by
  simp [extractItem, hb, hty1, hty2]

/-- An item extracted to `skip` contributes nothing to either table. -/
theorem processFindings_skip (item : Item) (rest : List Item)
    (hx : extractItem item = Except.ok RowOut.skip) :
    processFindings (item :: rest) = processFindings rest := by
  cases hr : processFindings rest with
  | error e => simp [processFindings, hx, hr]
  | ok p =>
    cases p with
    | mk vms k8s => simp [processFindings, hx, hr]

/-- C8: a container-cluster finding whose Kubernetes detail has zero
workload objects is skipped entirely: it yields no VM row and no
Kubernetes row, and the tables are those of the remaining findings. -/
theorem scc_C8 (item : Item) (rest : List Item)
    (hty : item.resource.type = "google.container.Cluster")
    (hobj : item.finding.kubernetes.objects = [])
    (hb : ∃ row, base_row item.finding = Except.ok row) :
    extractItem item = Except.ok RowOut.skip ∧
    processFindings (item :: rest) = processFindings rest := by
  obtain ⟨row, hb⟩ := hb
  have hx := extractItem_cluster_empty item row hty hobj hb
  exact ⟨hx, processFindings_skip item rest hx⟩

/-- Witness for C8 at the concrete cluster item with zero workload
objects. -/
theorem scc_C8_witness :
    extractItem emptyK8sItem = Except.ok RowOut.skip ∧
    processFindings [emptyK8sItem] = processFindings [] :=
  scc_C8 emptyK8sItem [] rfl rfl ⟨goodBaseRow, rfl⟩

/-- The category folder lookup is truthy exactly on the two mapped
category labels. -/
theorem truthy_lookup_category (CATEGORY : String) :
    truthy (List.lookup CATEGORY CATEGORY_FOLDER_MAP) =
      (CATEGORY == "SOFTWARE_VULNERABILITY" || CATEGORY == "OS_VULNERABILITY") := by
  by_cases h1 : CATEGORY = "SOFTWARE_VULNERABILITY"
  · subst h1; decide
  · by_cases h2 : CATEGORY = "OS_VULNERABILITY"
    · subst h2; decide
    · have hb1 : (CATEGORY == "SOFTWARE_VULNERABILITY") = false :=
        beq_eq_false_iff_ne.mpr h1
      have hb2 : (CATEGORY == "OS_VULNERABILITY") = false :=
        beq_eq_false_iff_ne.mpr h2
      simp [CATEGORY_FOLDER_MAP, List.lookup, hb1, hb2, truthy]

/-- C10: every hardcoded project id resolves in the project folder
map, so the folder-mapping guard of `processCategory` triggers exactly
when the category is outside the two mapped labels; in particular the
default category "UNKNOWN" always fails resolution. -/
theorem scc_C10 :
    (∀ PROJECT_ID ∈ PROJECT_IDS,
      truthy (List.lookup PROJECT_ID PROJECT_FOLDER_MAP) = true) ∧
    (∀ PROJECT_ID ∈ PROJECT_IDS, ∀ CATEGORY : String,
      ((!truthy (List.lookup CATEGORY CATEGORY_FOLDER_MAP) ||
        !truthy (List.lookup PROJECT_ID PROJECT_FOLDER_MAP)) = true ↔
        (CATEGORY ≠ "SOFTWARE_VULNERABILITY" ∧ CATEGORY ≠ "OS_VULNERABILITY"))) ∧
    truthy (List.lookup "UNKNOWN" CATEGORY_FOLDER_MAP) = false := by
  refine ⟨?_, ?_, by decide⟩
  · intro PROJECT_ID hmem
    fin_cases hmem <;> decide
  · intro PROJECT_ID hmem CATEGORY
    have hp : truthy (List.lookup PROJECT_ID PROJECT_FOLDER_MAP) = true := by
      fin_cases hmem <;> decide
    rw [hp, truthy_lookup_category]
    simp [not_or]

/-- Witness for C10 at the first hardcoded project and the default
category "UNKNOWN". -/
theorem scc_C10_witness :
    truthy (List.lookup "toorak-396910" PROJECT_FOLDER_MAP) = true ∧
    ((!truthy (List.lookup "UNKNOWN" CATEGORY_FOLDER_MAP) ||
      !truthy (List.lookup "toorak-396910" PROJECT_FOLDER_MAP)) = true ↔
      ("UNKNOWN" ≠ "SOFTWARE_VULNERABILITY" ∧ "UNKNOWN" ≠ "OS_VULNERABILITY")) :=
  ⟨scc_C10.1 "toorak-396910" (by decide),
   scc_C10.2.1 "toorak-396910" (by decide) "UNKNOWN"⟩

/-- A missing folder mapping makes the category iteration raise the
`ValueError` message. -/
theorem processCategory_missing (PROJECT_ID TIMESTAMP CATEGORY : String)
    (findings : List Item)
    (h : List.lookup CATEGORY CATEGORY_FOLDER_MAP = none ∨
         List.lookup PROJECT_ID PROJECT_FOLDER_MAP = none) :
    processCategory PROJECT_ID TIMESTAMP CATEGORY findings =
      Except.error ("Missing folder mapping for CATEGORY=" ++ CATEGORY ++
        ", PROJECT_ID=" ++ PROJECT_ID) := by
  rcases h with h | h <;> simp [processCategory, h, truthy]

/-- The category loop over a concatenation: a clean first part
contributes its effects and the second part continues from them. -/
theorem processCategories_append_ok (PROJECT_ID TIMESTAMP : String)
    (xs ys : List (String × List Item)) (ws ups : List String)
    (h : processCategories PROJECT_ID TIMESTAMP xs = (ws, ups, none)) :
    processCategories PROJECT_ID TIMESTAMP (xs ++ ys) =
      (ws ++ (processCategories PROJECT_ID TIMESTAMP ys).1,
       ups ++ (processCategories PROJECT_ID TIMESTAMP ys).2.1,
       (processCategories PROJECT_ID TIMESTAMP ys).2.2) := by
  induction xs generalizing ws ups with
  | nil =>
    simp only [processCategories, Prod.mk.injEq] at h
    simp [← h.1, ← h.2.1]
  | cons hd tl ih =>
    cases hd with
    | mk CATEGORY findings =>
      cases hc : processCategory PROJECT_ID TIMESTAMP CATEGORY findings with
      | error e => simp [processCategories, hc] at h
      | ok p =>
        cases p with
        | mk localPath gcsPath =>
          simp only [processCategories, hc, Prod.mk.injEq] at h
          obtain ⟨hw, hu, he⟩ := h
          cases ht : processCategories PROJECT_ID TIMESTAMP tl with
          | mk ws2 r2 =>
            cases r2 with
            | mk ups2 err2 =>
              rw [ht] at hw hu he
              cases err2 with
              | some e => simp at he
              | none =>
                have := ih ws2 ups2 ht
                simp only [List.cons_append, processCategories, hc, this]
                simp [this, ← hw, ← hu]

/-- The category loop starting at a category that raises: no effects
from it or from later categories, and the error is recorded. -/
theorem processCategories_error_head (PROJECT_ID TIMESTAMP CATEGORY e : String)
    (findings : List Item) (rest : List (String × List Item))
    (h : processCategory PROJECT_ID TIMESTAMP CATEGORY findings = Except.error e) :
    processCategories PROJECT_ID TIMESTAMP ((CATEGORY, findings) :: rest) =
      ([], [], some e) := by
  simp [processCategories, h]

/-- C3: a category whose folder mapping is missing makes the project
be recorded FAILED with the `ValueError` message, while the writes and
uploads of the categories already processed before it are kept. -/
theorem scc_C3 (findingsOf : String → List Item)
    (TIMESTAMP PROJECT_ID : String)
    (pre : List (String × List Item)) (CATEGORY : String)
    (findings : List Item) (rest : List (String × List Item))
    (ws ups : List String)
    (hne : findingsOf PROJECT_ID ≠ [])
    (hbuckets : category_buckets (findingsOf PROJECT_ID) =
      pre ++ (CATEGORY, findings) :: rest)
    (hpre : processCategories PROJECT_ID TIMESTAMP pre = (ws, ups, none))
    (hmiss : List.lookup CATEGORY CATEGORY_FOLDER_MAP = none ∨
             List.lookup PROJECT_ID PROJECT_FOLDER_MAP = none) :
    processProject findingsOf TIMESTAMP PROJECT_ID =
      { line := PROJECT_ID ++ ": FAILED (" ++
          ("Missing folder mapping for CATEGORY=" ++ CATEGORY ++
            ", PROJECT_ID=" ++ PROJECT_ID) ++ ")"
        writes := ws
        uploads := ups } := by
  have herr := processCategories_error_head PROJECT_ID TIMESTAMP CATEGORY
    ("Missing folder mapping for CATEGORY=" ++ CATEGORY ++ ", PROJECT_ID=" ++ PROJECT_ID)
    findings rest
    (processCategory_missing PROJECT_ID TIMESTAMP CATEGORY findings hmiss)
  have hall := processCategories_append_ok PROJECT_ID TIMESTAMP pre
    ((CATEGORY, findings) :: rest) ws ups hpre
  rw [herr] at hall
  have hempty : (findingsOf PROJECT_ID).isEmpty = false :=
    List.isEmpty_eq_false.mpr hne
  simp [processProject, hempty, hbuckets, hall]

/-- Witness for C3: the first hardcoded project with one finding in
the mapped category SOFTWARE_VULNERABILITY and one in the unmapped
category OTHER_CATEGORY; the first category's write and upload are
kept and the summary line is FAILED. -/
theorem scc_C3_witness :
    processProject findsMixed "20260102_030405" "toorak-396910" =
      { line := "toorak-396910" ++ ": FAILED (" ++
          ("Missing folder mapping for CATEGORY=" ++ "OTHER_CATEGORY" ++
            ", PROJECT_ID=" ++ "toorak-396910") ++ ")"
        writes := ["/tmp/scc_toorak-396910_SOFTWARE_VULNERABILITY_20260102_030405.xlsx"]
        uploads := ["SCC-Reports/software_vulnerabilities/tc/scc_toorak-396910_20260102_030405.xlsx"] } :=
  scc_C3 findsMixed "20260102_030405" "toorak-396910"
    [("SOFTWARE_VULNERABILITY", [goodVmItem])] "OTHER_CATEGORY" [badCatItem] []
    ["/tmp/scc_toorak-396910_SOFTWARE_VULNERABILITY_20260102_030405.xlsx"]
    ["SCC-Reports/software_vulnerabilities/tc/scc_toorak-396910_20260102_030405.xlsx"]
    (by decide) rfl rfl (Or.inl rfl)

/-- Every project iteration produces one of the three admissible
summary-line shapes. -/
theorem processProject_line_shape (findingsOf : String → List Item)
    (TIMESTAMP PROJECT_ID : String) :
    isSummaryLine PROJECT_ID (processProject findingsOf TIMESTAMP PROJECT_ID).line := by
  unfold processProject isSummaryLine
  by_cases he : (findingsOf PROJECT_ID).isEmpty
  · simp [he]
  · cases herr : (processCategories PROJECT_ID TIMESTAMP
        (category_buckets (findingsOf PROJECT_ID))).2.2 with
    | none => simp [he, herr]
    | some e =>
      simp only [he, Bool.false_eq_true, if_false, herr]
      exact Or.inr (Or.inr ⟨e, rfl⟩)

/-- C6: with the bucket configured, the entry point returns transport
status 200 whatever the per-project outcomes are, and the body is the
fixed header followed by exactly one summary line per hardcoded
project in input order, each of the three admissible shapes. -/
theorem scc_C6 (GCS_BUCKET : Option String) (findingsOf : String → List Item)
    (utcnow : UtcTime) (h : truthy GCS_BUCKET = true) :
    (generate_scc_report GCS_BUCKET findingsOf utcnow).status = 200 ∧
    (generate_scc_report GCS_BUCKET findingsOf utcnow).body =
      "SCC report generation completed\n\n" ++
        String.intercalate "\n" (PROJECT_IDS.map (fun PROJECT_ID =>
          (processProject findingsOf (strftime_Ymd_HMS utcnow) PROJECT_ID).line)) ∧
    ∀ PROJECT_ID, isSummaryLine PROJECT_ID
      (processProject findingsOf (strftime_Ymd_HMS utcnow) PROJECT_ID).line := by
  refine ⟨?_, ?_, fun PROJECT_ID =>
    processProject_line_shape findingsOf (strftime_Ymd_HMS utcnow) PROJECT_ID⟩
  · simp [generate_scc_report, h]
  · simp [generate_scc_report, h, List.map_map, Function.comp_def]

/-- Witness for C6: a configured bucket and the empty findings
service. -/
theorem scc_C6_witness :
    (generate_scc_report (some "my-bucket") findsNone t0).status = 200 ∧
    (generate_scc_report (some "my-bucket") findsNone t0).body =
      "SCC report generation completed\n\n" ++
        String.intercalate "\n" (PROJECT_IDS.map (fun PROJECT_ID =>
          (processProject findsNone (strftime_Ymd_HMS t0) PROJECT_ID).line)) ∧
    ∀ PROJECT_ID, isSummaryLine PROJECT_ID
      (processProject findsNone (strftime_Ymd_HMS t0) PROJECT_ID).line :=
  scc_C6 (some "my-bucket") findsNone t0 (by decide)

/-- A successful category iteration determines both paths from the two
folder lookups. -/
theorem processCategory_ok_path (PROJECT_ID TIMESTAMP CATEGORY : String)
    (findings : List Item) (localPath gcsPath : String)
    (h : processCategory PROJECT_ID TIMESTAMP CATEGORY findings =
      Except.ok (localPath, gcsPath)) :
    ∃ top_level_folder project_folder,
      List.lookup CATEGORY CATEGORY_FOLDER_MAP = some top_level_folder ∧
      List.lookup PROJECT_ID PROJECT_FOLDER_MAP = some project_folder ∧
      localPath = "/tmp/scc_" ++ PROJECT_ID ++ "_" ++ CATEGORY ++ "_" ++
        TIMESTAMP ++ ".xlsx" ∧
      gcsPath = "SCC-Reports/" ++ top_level_folder ++ "/" ++ project_folder ++
        "/scc_" ++ PROJECT_ID ++ "_" ++ TIMESTAMP ++ ".xlsx" := by
  unfold processCategory at h
  cases hcat : List.lookup CATEGORY CATEGORY_FOLDER_MAP with
  | none => rw [hcat] at h; simp [truthy] at h
  | some top =>
    cases hproj : List.lookup PROJECT_ID PROJECT_FOLDER_MAP with
    | none => rw [hcat, hproj] at h; simp [truthy] at h
    | some proj =>
      rw [hcat, hproj] at h
      by_cases htop : top.isEmpty
      · simp [truthy, htop] at h
      · by_cases hp : proj.isEmpty
        · simp [truthy, htop, hp] at h
        · simp only [truthy, htop, hp, Bool.not_false, Bool.not_true,
            Bool.or_self, Bool.false_eq_true, if_false, Option.getD_some] at h
          cases hpf : processFindings findings with
          | error e => rw [hpf] at h; simp at h
          | ok p =>
            rw [hpf] at h
            simp only [Except.ok.injEq, Prod.mk.injEq] at h
            exact ⟨top, proj, rfl, rfl, h.1.symm, h.2.symm⟩

/-- Every upload of the category loop has the destination-path shape
derived from the two folder lookups and the run timestamp. -/
theorem processCategories_uploads_shape (PROJECT_ID TIMESTAMP : String) :
    ∀ (bs : List (String × List Item)) (path : String),
      path ∈ (processCategories PROJECT_ID TIMESTAMP bs).2.1 →
      ∃ CATEGORY top_level_folder project_folder,
        List.lookup CATEGORY CATEGORY_FOLDER_MAP = some top_level_folder ∧
        List.lookup PROJECT_ID PROJECT_FOLDER_MAP = some project_folder ∧
        path = "SCC-Reports/" ++ top_level_folder ++ "/" ++ project_folder ++
          "/scc_" ++ PROJECT_ID ++ "_" ++ TIMESTAMP ++ ".xlsx" := by
  intro bs
  induction bs with
  | nil => intro path hmem; simp [processCategories] at hmem
  | cons hd tl ih =>
    cases hd with
    | mk CATEGORY findings =>
      intro path hmem
      cases hc : processCategory PROJECT_ID TIMESTAMP CATEGORY findings with
      | error e => simp [processCategories, hc] at hmem
      | ok p =>
        cases p with
        | mk localPath gcsPath =>
          simp only [processCategories, hc, List.mem_cons] at hmem
          cases hmem with
          | inl hpath =>
            obtain ⟨top, proj, h1, h2, _, h4⟩ :=
              processCategory_ok_path PROJECT_ID TIMESTAMP CATEGORY findings
                localPath gcsPath hc
            exact ⟨CATEGORY, top, proj, h1, h2, hpath.trans h4⟩
          | inr htail => exact ih path htail

/-- The uploads of a project iteration are those of its category
loop. -/
theorem processProject_uploads (findingsOf : String → List Item)
    (TIMESTAMP PROJECT_ID : String) :
    (processProject findingsOf TIMESTAMP PROJECT_ID).uploads = [] ∨
    (processProject findingsOf TIMESTAMP PROJECT_ID).uploads =
      (processCategories PROJECT_ID TIMESTAMP
        (category_buckets (findingsOf PROJECT_ID))).2.1 := by
  unfold processProject
  by_cases he : (findingsOf PROJECT_ID).isEmpty
  · simp [he]
  · cases herr : (processCategories PROJECT_ID TIMESTAMP
        (category_buckets (findingsOf PROJECT_ID))).2.2 with
    | none => simp [he, herr]
    | some e => simp [he, herr]

/-- C7: every destination path uploaded by a run has the form
SCC-Reports/(category folder)/(project folder)/scc_(project id)_
(timestamp).xlsx, where the folder segments come from the two static
maps and the timestamp is the single run start time formatted
YYYYMMDD_HHMMSS. -/
theorem scc_C7 (GCS_BUCKET : Option String) (findingsOf : String → List Item)
    (utcnow : UtcTime) (path : String)
    (hmem : path ∈ (generate_scc_report GCS_BUCKET findingsOf utcnow).uploads) :
    ∃ PROJECT_ID CATEGORY top_level_folder project_folder,
      PROJECT_ID ∈ PROJECT_IDS ∧
      List.lookup CATEGORY CATEGORY_FOLDER_MAP = some top_level_folder ∧
      List.lookup PROJECT_ID PROJECT_FOLDER_MAP = some project_folder ∧
      path = "SCC-Reports/" ++ top_level_folder ++ "/" ++ project_folder ++
        "/scc_" ++ PROJECT_ID ++ "_" ++ strftime_Ymd_HMS utcnow ++ ".xlsx" := by
  by_cases h : truthy GCS_BUCKET
  · simp only [generate_scc_report, h, Bool.not_true, Bool.false_eq_true,
      if_false, List.mem_flatten, List.mem_map] at hmem
    obtain ⟨l, ⟨r, ⟨PROJECT_ID, hpid, hr⟩, hl⟩, hpath⟩ := hmem
    subst hr hl
    have hup := processProject_uploads findingsOf (strftime_Ymd_HMS utcnow) PROJECT_ID
    cases hup with
    | inl hnil => rw [hnil] at hpath; cases hpath
    | inr heq =>
      rw [heq] at hpath
      obtain ⟨CATEGORY, top, proj, h1, h2, h3⟩ :=
        processCategories_uploads_shape PROJECT_ID (strftime_Ymd_HMS utcnow)
          (category_buckets (findingsOf PROJECT_ID)) path hpath
      exact ⟨PROJECT_ID, CATEGORY, top, proj, hpid, h1, h2, h3⟩
  · simp [generate_scc_report, h] at hmem

/-- Witness for C7: the run over `findsGood` uploads exactly one file,
at the expected destination path. -/
theorem scc_C7_witness :
    ∃ PROJECT_ID CATEGORY top_level_folder project_folder,
      PROJECT_ID ∈ PROJECT_IDS ∧
      List.lookup CATEGORY CATEGORY_FOLDER_MAP = some top_level_folder ∧
      List.lookup PROJECT_ID PROJECT_FOLDER_MAP = some project_folder ∧
      "SCC-Reports/software_vulnerabilities/tc/scc_toorak-396910_20260102_030405.xlsx" =
        "SCC-Reports/" ++ top_level_folder ++ "/" ++ project_folder ++
          "/scc_" ++ PROJECT_ID ++ "_" ++ strftime_Ymd_HMS t0 ++ ".xlsx" :=
  scc_C7 (some "my-bucket") findsGood t0
    "SCC-Reports/software_vulnerabilities/tc/scc_toorak-396910_20260102_030405.xlsx"
    (by decide)

/-- The two tables produced by the extraction loop count exactly the
compute-instance items and the container-cluster items with at least
one workload object. -/
theorem processFindings_counts (items : List Item) :
    ∀ p : List VmRow × List K8sRow,
      processFindings items = Except.ok p →
      p.1.length = (items.filter (fun it =>
        it.resource.type == "google.compute.Instance")).length ∧
      p.2.length = (items.filter (fun it =>
        it.resource.type == "google.container.Cluster" &&
          !it.finding.kubernetes.objects.isEmpty)).length := by
  induction items with
  | nil =>
    intro p h
    simp only [processFindings, Except.ok.injEq] at h
    simp [← h]
  | cons item rest ih =>
    intro p h
    cases hx : extractItem item with
    | error e => simp [processFindings, hx] at h
    | ok out =>
      cases hr : processFindings rest with
      | error e => simp [processFindings, hx, hr] at h
      | ok q =>
        obtain ⟨ih1, ih2⟩ := ih q hr
        obtain ⟨row, hb⟩ := extractItem_ok_base item out hx
        by_cases hty1 : item.resource.type = "google.compute.Instance"
        · have hout : out = RowOut.vm
              { base := row
                vm_name := item.resource.display_name
                event_time := item.finding.event_time } :=
            Except.ok.inj (hx.symm.trans (extractItem_compute item row hty1 hb))
          subst hout
          simp only [processFindings, hx, hr, Except.ok.injEq] at h
          have hc1 : (item.resource.type == "google.compute.Instance") = true := by
            simp [hty1]
          have hc2 : (item.resource.type == "google.container.Cluster" &&
              !item.finding.kubernetes.objects.isEmpty) = false := by
            simp [hty1]
          simp [← h, List.filter_cons, hc1, hc2, ih1, ih2]
        · by_cases hty2 : item.resource.type = "google.container.Cluster"
          · have hc1 : (item.resource.type == "google.compute.Instance") = false := by
              simp [hty2]
            cases hobj : item.finding.kubernetes.objects with
            | nil =>
              have hout : out = RowOut.skip :=
                Except.ok.inj
                  (hx.symm.trans (extractItem_cluster_empty item row hty2 hobj hb))
              subst hout
              simp only [processFindings, hx, hr, Except.ok.injEq] at h
              have hc2 : (item.resource.type == "google.container.Cluster" &&
                  !item.finding.kubernetes.objects.isEmpty) = false := by
                simp [hty2, hobj]
              simp [← h, List.filter_cons, hc1, hc2, ih1, ih2]
            | cons k8s_obj tail =>
              have hout : out = RowOut.k8s
                  { base := row
                    cluster_name := item.resource.display_name
                    ns := k8s_obj.ns
                    k8s_object_name := k8s_obj.name
                    image_uri :=
                      String.intercalate ", "
                        ((k8s_obj.containers.filter (fun c => c.uri ≠ "")).map
                          Container.uri)
                    event_time := item.finding.event_time } :=
                Except.ok.inj
                  (hx.symm.trans (extractItem_cluster_cons item row k8s_obj tail hty2 hobj hb))
              subst hout
              simp only [processFindings, hx, hr, Except.ok.injEq] at h
              have hc2 : (item.resource.type == "google.container.Cluster" &&
                  !item.finding.kubernetes.objects.isEmpty) = true := by
                simp [hty2, hobj]
              simp [← h, List.filter_cons, hc1, hc2, ih1, ih2]
          · have hout : out = RowOut.skip :=
              Except.ok.inj
                (hx.symm.trans (extractItem_other item row hty1 hty2 hb))
            subst hout
            simp only [processFindings, hx, hr, Except.ok.injEq] at h
            have hc1 : (item.resource.type == "google.compute.Instance") = false := by
              simp [hty1]
            have hc2 : (item.resource.type == "google.container.Cluster" &&
                !item.finding.kubernetes.objects.isEmpty) = false := by
              simp [hty2]
            simp [← h, List.filter_cons, hc1, hc2, ih1, ih2]

/-- Inserting one item grows the total bucket content by one. -/
theorem bucketInsert_total (bs : List (String × List Item)) (c : String)
    (it : Item) : bucketsTotal (bucketInsert bs c it) = bucketsTotal bs + 1 := by
  induction bs with
  | nil => simp [bucketInsert, bucketsTotal]
  | cons hd tl ih =>
    cases hd with
    | mk c0 items0 =>
      by_cases h : c0 = c
      · simp [bucketInsert, h, bucketsTotal]
        omega
      · simp only [bucketInsert, h, if_false, bucketsTotal, List.map_cons,
          List.sum_cons] at ih ⊢
        omega

/-- Inserting with key `c` leaves the key list unchanged when `c` is
already present, and appends `c` otherwise. -/
theorem bucketInsert_keys (bs : List (String × List Item)) (c : String)
    (it : Item) :
    (bucketInsert bs c it).map Prod.fst =
      if c ∈ bs.map Prod.fst then bs.map Prod.fst
      else bs.map Prod.fst ++ [c] := by
  induction bs with
  | nil => simp [bucketInsert]
  | cons hd tl ih =>
    cases hd with
    | mk c0 items0 =>
      by_cases h : c0 = c
      · simp [bucketInsert, h]
      · have hne : ¬c = c0 := fun hcc => h hcc.symm
        by_cases hm : c ∈ tl.map Prod.fst
        · simp [bucketInsert, h, ih, hm, hne]
        · simp [bucketInsert, h, ih, hm, hne]

/-- Insertion preserves distinctness of the bucket keys. -/
theorem bucketInsert_nodup (bs : List (String × List Item)) (c : String)
    (it : Item) (h : (bs.map Prod.fst).Nodup) :
    ((bucketInsert bs c it).map Prod.fst).Nodup := by
  rw [bucketInsert_keys]
  by_cases hm : c ∈ bs.map Prod.fst
  · simp [hm, h]
  · simp [hm, List.nodup_append, h]

/-- Insertion at the item's own category preserves coherence. -/
theorem bucketInsert_wf (bs : List (String × List Item)) (it : Item)
    (h : BucketsWF bs) : BucketsWF (bucketInsert bs (catOf it) it) := by
  induction bs with
  | nil =>
    intro p hp x hx
    simp only [bucketInsert, List.mem_singleton] at hp
    subst hp
    simp only [List.mem_singleton] at hx
    subst hx
    rfl
  | cons hd tl ih =>
    cases hd with
    | mk c0 items0 =>
      intro p hp x hx
      by_cases hc : c0 = catOf it
      · simp only [bucketInsert, if_pos hc, List.mem_cons] at hp
        rcases hp with rfl | hp
        · rcases List.mem_append.mp hx with hx2 | hx2
          · exact h (c0, items0) (List.mem_cons_self _ _) x hx2
          · rw [List.mem_singleton] at hx2
            subst hx2
            exact hc.symm
        · exact h p (List.mem_cons_of_mem _ hp) x hx
      · simp only [bucketInsert, if_neg hc, List.mem_cons] at hp
        rcases hp with rfl | hp
        · exact h (c0, items0) (List.mem_cons_self _ _) x hx
        · exact ih (fun q hq y hy => h q (List.mem_cons_of_mem _ hq) y hy) p hp x hx

/-- The bucketing fold preserves and establishes the three partition
facts relative to any starting accumulator. -/
theorem category_buckets_fold (items : List Item) :
    ∀ acc : List (String × List Item),
      bucketsTotal (items.foldl (fun b item => bucketInsert b (catOf item) item) acc) =
        bucketsTotal acc + items.length ∧
      ((acc.map Prod.fst).Nodup →
        ((items.foldl (fun b item => bucketInsert b (catOf item) item) acc).map
          Prod.fst).Nodup) ∧
      (BucketsWF acc →
        BucketsWF (items.foldl (fun b item => bucketInsert b (catOf item) item) acc)) := by
  induction items with
  | nil => intro acc; simp
  | cons item rest ih =>
    intro acc
    obtain ⟨h1, h2, h3⟩ := ih (bucketInsert acc (catOf item) item)
    refine ⟨?_, ?_, ?_⟩
    · simp only [List.foldl_cons]
      rw [h1, bucketInsert_total]
      simp [Nat.add_assoc, Nat.add_comm 1 rest.length]
    · intro hnd
      simp only [List.foldl_cons]
      exact h2 (bucketInsert_nodup acc (catOf item) item hnd)
    · intro hwf
      simp only [List.foldl_cons]
      exact h3 (bucketInsert_wf acc item hwf)

/-- C2: within a project, a compute-instance finding contributes one
row to the VMs table only, a container-cluster finding with at least
one workload object contributes one row to the Kubernetes table only,
and any other finding contributes to neither; and the category buckets
partition the fetched items, each item sitting in exactly the bucket
of its own category key (the keys being pairwise distinct). -/
theorem scc_C2 :
    (∀ (items : List Item) (p : List VmRow × List K8sRow),
      processFindings items = Except.ok p →
      p.1.length = (items.filter (fun it =>
        it.resource.type == "google.compute.Instance")).length ∧
      p.2.length = (items.filter (fun it =>
        it.resource.type == "google.container.Cluster" &&
          !it.finding.kubernetes.objects.isEmpty)).length) ∧
    (∀ items : List Item,
      bucketsTotal (category_buckets items) = items.length ∧
      ((category_buckets items).map Prod.fst).Nodup ∧
      BucketsWF (category_buckets items)) := by
  refine ⟨processFindings_counts, fun items => ?_⟩
  obtain ⟨h1, h2, h3⟩ := category_buckets_fold items []
  refine ⟨?_, h2 (by simp), h3 (fun p hp => by cases hp)⟩
  rw [category_buckets, h1]
  simp [bucketsTotal]

/-- Witness for C2 at a two-item list: one compute-instance item and
one workload-less container-cluster item give one VM row, no
Kubernetes row, and the buckets partition the items. -/
theorem scc_C2_witness :
    (([goodVmRow], ([] : List K8sRow)).1.length =
      ([goodVmItem, emptyK8sItem].filter (fun it =>
        it.resource.type == "google.compute.Instance")).length ∧
     ([goodVmRow], ([] : List K8sRow)).2.length =
      ([goodVmItem, emptyK8sItem].filter (fun it =>
        it.resource.type == "google.container.Cluster" &&
          !it.finding.kubernetes.objects.isEmpty)).length) ∧
    (bucketsTotal (category_buckets [goodVmItem, badCatItem]) =
      [goodVmItem, badCatItem].length ∧
     ((category_buckets [goodVmItem, badCatItem]).map Prod.fst).Nodup ∧
     BucketsWF (category_buckets [goodVmItem, badCatItem])) :=
  ⟨scc_C2.1 [goodVmItem, emptyK8sItem] ([goodVmRow], []) rfl,
   scc_C2.2 [goodVmItem, badCatItem]⟩

end SccReport
